import Mathlib

/-!
Shallow embedding of the SSHLibrary client modules
(`ssh_client.py`, `sftp.py`, `command.py`, `shell.py`, `config.py`)
for checking the natural-language specification against the code.

Python strings are modelled by `String` (in Lean 4.14 a `String` is a
wrapper around `List Char`, matching Python's sequence-of-code-points
view).  The Python string operations used by the source are re-implemented
structurally over `String.data` so that every definition reduces in the
kernel.  External collaborators (the `os`/`glob`/`fnmatch`/`re` standard
library, the paramiko transport and SFTP protocol, robot's time
formatting) are modelled as oracle functions supplied as parameters;
remote and local side effects are modelled as explicit operation traces.
-/

namespace SSHLib

/-! ### Python string primitives -/

/-- Python `sub in s` (substring containment). -/
def pyContains (s sub : String) : Bool := decide (sub.data <:+: s.data)

/-- Python `s.startswith(p)`. -/
def pyStartsWith (s p : String) : Bool := p.data.isPrefixOf s.data

/-- Python `s.endswith(p)`. -/
def pyEndsWith (s p : String) : Bool := p.data.isSuffixOf s.data

/-- Python `s.upper()` restricted to ASCII, which is all the source compares. -/
def pyToUpper (s : String) : String := ⟨s.data.map Char.toUpper⟩

/-- Python `len(s)`. -/
def pyLen (s : String) : Nat := s.data.length

/-- Python `s[n:]`. -/
def pyDrop (s : String) (n : Nat) : String := ⟨s.data.drop n⟩

/-- Python `s[:n]` for `n ≥ 0`. -/
def pyTake (s : String) (n : Nat) : String := ⟨s.data.take n⟩

/-- Python `s[:-k]`: for `k = 0` this is `s[:0] = ""`, otherwise the first
`len(s) - k` characters. -/
def pySliceToNeg (s : String) (k : Nat) : String :=
  if k = 0 then ⟨[]⟩ else ⟨s.data.take (s.data.length - k)⟩

/-- Python `s[-k:]` for `k ≥ 1` (used only to read the last character). -/
def pyTakeRight (s : String) (k : Nat) : String :=
  ⟨s.data.drop (s.data.length - k)⟩

/-- One step of Python `str.replace`: scan left to right replacing
non-overlapping occurrences of `o :: os`.  The scan consumes at least one
character per step, so `fuel = length` suffices; the fuel only makes the
recursion structural. -/
def pyReplaceList (o : Char) (os new : List Char) : Nat → List Char → List Char
  | 0, l => l
  | _ + 1, [] => []
  | fuel + 1, c :: rest =>
    if (o :: os).isPrefixOf (c :: rest) then
      new ++ pyReplaceList o os new fuel ((c :: rest).drop (os.length + 1))
    else
      c :: pyReplaceList o os new fuel rest

/-- Python `s.replace(old, new)`.  The empty-`old` case inserts `new`
around every character, as Python does. -/
def pyReplace (s old new : String) : String :=
  match old.data with
  | [] => ⟨new.data ++ s.data.flatMap (fun c => c :: new.data)⟩
  | o :: os => ⟨pyReplaceList o os new.data s.data.length s.data⟩

/-- Python `s.split(sep)` for a non-empty separator `o :: os`, with the
same structural-fuel scheme as `pyReplaceList`. -/
def pySplitList (o : Char) (os : List Char) : Nat → List Char → List (List Char)
  | 0, l => [l]
  | _ + 1, [] => [[]]
  | fuel + 1, c :: rest =>
    if (o :: os).isPrefixOf (c :: rest) then
      [] :: pySplitList o os fuel ((c :: rest).drop (os.length + 1))
    else
      match pySplitList o os fuel rest with
      | [] => [[c]]
      | h :: t => (c :: h) :: t

/-- Python `s.split(sep)`; the source never calls it with an empty
separator (Python would raise there), for which we return `[s]`. -/
def pySplitOn (s sep : String) : List String :=
  match sep.data with
  | [] => [s]
  | o :: os => (pySplitList o os s.data.length s.data).map (fun l => ⟨l⟩)

/-- Index of the last occurrence of `sep` in the scanned list, if any
(`i` is the index of the head of the not-yet-scanned part). -/
def lastMatchIndex (sep : List Char) : List Char → Nat → Option Nat → Option Nat
  | [], _, best => best
  | c :: t, i, best =>
    lastMatchIndex sep t (i + 1) (if sep.isPrefixOf (c :: t) then some i else best)

/-- Python `s.rsplit(sep, 1)` for non-empty `sep`: `none` when `sep` does
not occur in `s` (Python would return the one-element list `[s]`). -/
def pyRsplit1 (s sep : String) : Option (String × String) :=
  match lastMatchIndex sep.data s.data 0 none with
  | some i => some (⟨s.data.take i⟩, ⟨s.data.drop (i + sep.data.length)⟩)
  | none => none

/-- Python's `<` on code points, lifted to lexicographic `≤` on strings:
the order `sorted` uses for lists of `str`. -/
def pyLexLe : List Char → List Char → Bool
  | [], _ => true
  | _ :: _, [] => false
  | a :: as, b :: bs =>
    if a.toNat = b.toNat then pyLexLe as bs else decide (a.toNat < b.toNat)

/-- Ascending Python string order. -/
def pyStrLe (a b : String) : Bool := pyLexLe a.data b.data

/-- Python `sorted` on a list of strings. -/
def pySorted (items : List String) : List String := items.mergeSort pyStrLe

/-! ### POSIX mode-bit classification (`stat` module, used by SFTPFileInfo) -/

/-- `stat.S_IFMT` mask `0o170000`. -/
def S_IFMT : Nat := 61440

/-- `stat.S_IFREG = 0o100000`. -/
def S_IFREG : Nat := 32768

/-- `stat.S_IFDIR = 0o040000`. -/
def S_IFDIR : Nat := 16384

/-- `stat.S_IFLNK = 0o120000`. -/
def S_IFLNK : Nat := 40960

/-- `sftp.SFTPFileInfo`: name plus raw mode bits. -/
structure SFTPFileInfo where
  name : String
  mode : Nat

/-- `SFTPFileInfo.is_regular` = `stat.S_ISREG(self.mode)`. -/
def SFTPFileInfo.is_regular (f : SFTPFileInfo) : Bool :=
  f.mode &&& S_IFMT == S_IFREG

/-- `SFTPFileInfo.is_directory` = `stat.S_ISDIR(self.mode)`. -/
def SFTPFileInfo.is_directory (f : SFTPFileInfo) : Bool :=
  f.mode &&& S_IFMT == S_IFDIR

/-- `SFTPFileInfo.is_link` = `stat.S_ISLNK(self.mode)`. -/
def SFTPFileInfo.is_link (f : SFTPFileInfo) : Bool :=
  f.mode &&& S_IFMT == S_IFLNK

/-! ### Command stack (`SSHClient.start_command` / `read_command_output`) -/

/-- `SSHClient.start_command`: `self._started_commands.append(cmd)` —
the new in-flight command goes to the end of the sequence. -/
def start_command {α : Type} (started_commands : List α) (cmd : α) : List α :=
  started_commands ++ [cmd]

/-- `SSHClient.read_command_output`: `self._started_commands.pop()` removes
and returns the LAST element; an empty stack raises. The returned pair is
(the command whose outputs are read, the remaining stack). -/
def read_command_output {α : Type} (started_commands : List α) :
    Except String (α × List α) :=
  match started_commands.getLast? with
  | some cmd => .ok (cmd, started_commands.dropLast)
  | none => .error "No started commands to read output from."

/-! ### Session close (`SSHClient.close`) -/

/-- Externally visible actions performed by `close`. -/
inductive CloseOp where
  | closeTunnel
  | closeTransport
deriving DecidableEq

/-- The `SSHClient` attributes that `close` touches.  `R` and `T` are the
(opaque) types of cached sub-resources and of the tunnel handle. -/
structure SessionState (R T : Type) where
  tunnel : Option T
  _sftp_client : Option R
  _scp_transfer_client : Option R
  _scp_all_client : Option R
  _shell : Option R
  transportOpen : Bool

/-- `SSHClient.close`: closes the tunnel when one is set (the field itself
is not cleared), discards the four lazily created sub-resources, closes
the transport.  Total: no path raises (the trailing
`logger.log_background_messages` is wrapped in a try/except). -/
def SessionState.close {R T : Type} (s : SessionState R T) :
    SessionState R T × List CloseOp :=
  let tunnelOps : List CloseOp :=
    match s.tunnel with
    | some _ => [.closeTunnel]
    | none => []
  ({ s with
      _sftp_client := none
      _scp_transfer_client := none
      _scp_all_client := none
      _shell := none
      transportOpen := false },
    tunnelOps ++ [.closeTransport])

/-! ### SSH config lookup (`SSHClient._read_login_ssh_config` and helpers) -/

/-- Result of `paramiko.SSHConfig.lookup(host)`, one optional value per
field the source reads (a missing key raises `KeyError` there). -/
structure SSHConfigEntry where
  hostname : Option String
  user : Option String
  port : Option Nat
  proxycommand : Option String

/-- `SSHClient._get_ssh_config_user`.  In the source the ternary
`conf.lookup(host)["user"] if not None else user` always takes the lookup
value because `not None` is `True`, and the `except KeyError` branch
returns `None` — the caller-given `user` is never returned. -/
def _get_ssh_config_user (conf : String → SSHConfigEntry) (host : String)
    (user : Option String) : Option String :=
  match (conf host).user with
  | some value => some value
  | none => none

/-- `SSHClient._get_ssh_config_proxy_cmd`: lookup value when present,
otherwise (KeyError) the given `proxy_cmd`. -/
def _get_ssh_config_proxy_cmd (conf : String → SSHConfigEntry) (host : String)
    (proxy_cmd : Option String) : Option String :=
  match (conf host).proxycommand with
  | some value => some value
  | none => proxy_cmd

/-- `SSHClient._get_ssh_config_port` composed with the caller's `int(...)`:
lookup value when present, otherwise (KeyError) the given `port_number`. -/
def _get_ssh_config_port (conf : String → SSHConfigEntry) (host : String)
    (port_number : Nat) : Nat :=
  match (conf host).port with
  | some value => value
  | none => port_number

/-- `SSHClient._get_ssh_config_host`: lookup value when present, otherwise
(KeyError) the given `host`. -/
def _get_ssh_config_host (conf : String → SSHConfigEntry) (host : String) :
    String :=
  match (conf host).hostname with
  | some value => value
  | none => host

/-- `SSHClient._read_login_ssh_config`.  `config_exists` models
`os.path.exists("~/.ssh/config")`; `conf` models the parsed configuration.
Returns `(host, user, port, proxy_command)` exactly as the source does. -/
def _read_login_ssh_config (config_exists : Bool)
    (conf : String → SSHConfigEntry) (host : String) (username : Option String)
    (port_number : Nat) (proxy_cmd : Option String) :
    String × Option String × Nat × Option String :=
  if config_exists then
    let port := _get_ssh_config_port conf host port_number
    let user := _get_ssh_config_user conf host username
    let proxy_command := _get_ssh_config_proxy_cmd conf host proxy_cmd
    let host2 := _get_ssh_config_host conf host
    (host2, user, port, proxy_command)
  else
    (host, username, port_number, proxy_cmd)

/-! ### Login password normalization (`SSHClient.login` / `_login`) -/

/-- A Python `str` or `bytes` value, as the password flows through
`login` (it is encoded only on the `password and not allow_agent` path). -/
inductive PyText where
  | pstr (s : String)
  | pbytes (b : List Nat)

/-- Python truthiness for an optional str-or-bytes value. -/
def pyTruthy : Option PyText → Bool
  | none => false
  | some (.pstr s) => !s.data.isEmpty
  | some (.pbytes b) => !b.isEmpty

/-- The password preprocessing in `SSHClient.login`:
`if not password or password == dquot-dquot: password = None` followed by
`if password and not allow_agent: password = self._encode(password)`.
`encode` models `str.encode` with the session encoding. -/
def login_password_setup (encode : String → List Nat)
    (password : Option String) (allow_agent : Bool) : Option PyText :=
  let password : Option String :=
    match password with
    | none => none
    | some p => if p = "" ∨ p = "\"\"" then none else some p
  match password with
  | none => none
  | some p => if allow_agent = false then some (.pbytes (encode p)) else some (.pstr p)

/-- Which authentication sequence `SSHClient._login` runs first. -/
inductive AuthPath where
  | noAuthFirst
  | passwordFirst
deriving DecidableEq

/-- The branch `if not password and not allow_agent:` of `SSHClient._login`:
with no usable password and no agent it tries the connection without
authentication first (then `auth_none`); otherwise the password path. -/
def _login_auth_path (password : Option PyText) (allow_agent : Bool) : AuthPath :=
  if !pyTruthy password && !allow_agent then .noAuthFirst else .passwordFirst

/-! ### Blocking read-until engine (`SSHClient._read_until` and variants)

Time is modelled in loop ticks: `while time.time() < max_time` runs one
iteration per tick and the per-iteration `read_char` yields at most one
decoded character, so a timeout of `t` allows `t` iterations.  The
character (or nothing) arriving at each tick is the session's `stream`. -/

/-- The message of the `SSHClientException` raised on timeout:
`"No match found for '%s' in %s\nOutput:\n%s." % (expected, timeout, output)`. -/
def no_match_message (expected timeout_str output : String) : String :=
  "No match found for '" ++ expected ++ "' in " ++ timeout_str ++
    "\nOutput:\n" ++ output ++ "."

/-- The loop body of `SSHClient._read_until`: each iteration reads one
character if available (`read_char` returns the empty string otherwise),
appends it, and applies the matcher to the accumulated output; when the
tick list (the time budget) is exhausted the timeout error is raised. -/
def _read_until_loop (matcher : String → Bool) (expected timeout_str : String) :
    List (Option Char) → String → Except String String
  | [], output => .error (no_match_message expected timeout_str output)
  | tick :: rest, output =>
    let output :=
      match tick with
      | some ch => output.push ch
      | none => output
    if matcher output then .ok output
    else _read_until_loop matcher expected timeout_str rest output

/-- `timeout = TimeEntry(timeout) if timeout else self.config.get("timeout")`:
a per-call timeout of `None` (or the falsy `0`) selects the session
default. -/
def resolve_timeout (per_call : Option Nat) (session_default : Nat) : Nat :=
  match per_call with
  | some t => if t ≠ 0 then t else session_default
  | none => session_default

/-- The session state an individual read-until call sees: the configured
default timeout, the `secs_to_timestr` formatting collaborator used when
a `TimeEntry` is interpolated into the error message, and the incoming
character stream. -/
structure ReadCtx where
  session_timeout : Nat
  fmt_time : Nat → String
  stream : List (Option Char)

/-- `SSHClient._read_until(matcher, expected, timeout=None)`. -/
def _read_until (ctx : ReadCtx) (matcher : String → Bool) (expected : String)
    (per_call : Option Nat) : Except String String :=
  let t := resolve_timeout per_call ctx.session_timeout
  _read_until_loop matcher expected (ctx.fmt_time t) (ctx.stream.take t) ""

/-- `SSHClient.read_until(expected)`: matcher is `expected in s`. -/
def read_until (ctx : ReadCtx) (expected : String) : Except String String :=
  _read_until ctx (fun s => pyContains s expected) expected none

/-- A compiled `re` pattern as the source uses it: its `pattern` text and
its `search` returning the span of the first match, if any. -/
structure PyRegex where
  pattern : String
  search : String → Option (Nat × Nat)

/-- `SSHClient.read_until_regexp(regexp)`: matcher is `regexp.search(s)`. -/
def read_until_regexp (ctx : ReadCtx) (regexp : PyRegex) : Except String String :=
  _read_until ctx (fun s => (regexp.search s).isSome) regexp.pattern none

/-- `SSHClient._strip_prompt(output)`: for a `REGEXP:`-tagged prompt the
span length of the match is removed from the tail (a failed search would
be an `AttributeError` on `None` in the source); for a literal prompt
exactly `len(prompt)` characters are removed (`output[:-length]`). -/
def _strip_prompt (re_compile : String → PyRegex) (prompt output : String) :
    Except String String :=
  if pyStartsWith prompt "REGEXP:" then
    match (re_compile (pyDrop prompt 7)).search output with
    | some span => .ok (pySliceToNeg output (span.2 - span.1))
    | none => .error "AttributeError: NoneType object has no attribute end"
  else
    .ok (pySliceToNeg output (pyLen prompt))

/-- `SSHClient.read_until_prompt(strip_prompt=False)`.  `prompt` is the
configured `self.config.prompt` (an unset or empty prompt raises);
`re_compile` models `re.compile`. -/
def read_until_prompt (ctx : ReadCtx) (re_compile : String → PyRegex)
    (prompt : Option String) (strip_prompt : Bool) : Except String String :=
  match prompt with
  | none => .error "Prompt is not set."
  | some p =>
    if p.data.isEmpty then .error "Prompt is not set."
    else
      match
        (if pyStartsWith p "REGEXP:" then
          read_until_regexp ctx (re_compile (pyDrop p 7))
        else
          read_until ctx p) with
      | .error e => .error e
      | .ok output =>
        if strip_prompt then _strip_prompt re_compile p output else .ok output

/-! ### SFTP client model (`sftp.SFTPClient`)

The paramiko SFTP protocol object and the local `os`/`glob`/`fnmatch`
standard library are external collaborators; their query operations are
oracle functions, and every mutating call the client issues (remote
mkdir/chmod/file-write, local makedirs, downloads) is recorded in an
explicit `FOp` trace in the order the source performs it. -/

/-- A `mode` value as it flows through `put_file`: either the original
string (when falsy, it is never converted) or the `int(mode, 8)` value. -/
inductive PyMode where
  | raw (s : String)
  | num (n : Nat)
deriving DecidableEq

/-- Python truthiness of the optional mode (`if mode:`): `None`, `""` and
`0` are falsy. -/
def py_truthy_mode : Option PyMode → Bool
  | none => false
  | some (.raw s) => !s.data.isEmpty
  | some (.num n) => n != 0

/-- Mutating calls issued against the remote SFTP session or the local
filesystem. -/
inductive FOp where
  | mkdir_remote (path : String) (mode : Nat)
  | chmod_remote (path : String) (mode : PyMode)
  | open_remote (path : String)
  | write_remote (data : List Nat)
  | close_remote
  | download (remote_path local_path : String)
  | makedirs_local (path : String)
deriving DecidableEq

/-- Query side of the paramiko SFTP collaborator:
`stat` (mode bits; `none` is the `IOError` on a missing path),
`listdir_attr`, `readlink` and `normalize`. -/
structure RemoteFS where
  stat : String → Option Nat
  listdir_attr : String → List (String × Nat)
  readlink : String → String
  normalize : String → String

/-- Query side of the local standard library collaborators used by the
transfer code: `os.sep`, `os.path` helpers, `glob.glob`,
`ntpath.splitdrive`, `fnmatch.fnmatchcase`, and the 4096-byte chunked
reads of a local file. -/
structure LocalSys where
  sep : String
  path_exists : String → Bool
  glob : String → List String
  abspath : String → String
  basename : String → String
  dirname : String → String
  join : String → String → String
  splitdrive : String → String × String
  fnmatchcase : String → String → Bool
  read_chunks : String → List (List Nat)

/-- An `SFTPClient` instance: the two collaborator bundles. -/
structure SFTPModel where
  sys : LocalSys
  remote : RemoteFS

/-- `SFTPClient._is_windows_path`: nonempty `ntpath.splitdrive(path)[0]`. -/
def _is_windows_path (M : SFTPModel) (path : String) : Bool :=
  (M.sys.splitdrive path).1 != ""

/-- `SFTPClient._absolute_path`: non-Windows paths go through the remote
`normalize`; decoding is the identity in the model. -/
def _absolute_path (M : SFTPModel) (path : String) : String :=
  if _is_windows_path M path then path else M.remote.normalize path

/-- `self._homedir = self._absolute_path(b".")`, captured at client
construction (the oracles are pure, so recomputing it is equivalent). -/
def homedir (M : SFTPModel) : String := _absolute_path M "."

/-- `SFTPClient._stat`: a failing remote stat is the `IOError` case. -/
def _stat (M : SFTPModel) (path : String) : Option SFTPFileInfo :=
  (M.remote.stat path).map (fun m => ⟨"", m⟩)

/-- `SFTPClient.is_file`: stat (following symlinks) then `is_regular`;
`IOError` yields `False`. -/
def is_file (M : SFTPModel) (path : String) : Bool :=
  match _stat M path with
  | some item => item.is_regular
  | none => false

/-- `SFTPClient.is_dir`: stat (following symlinks) then `is_directory`;
`IOError` yields `False`. -/
def is_dir (M : SFTPModel) (path : String) : Bool :=
  match _stat M path with
  | some item => item.is_directory
  | none => false

/-- `SFTPClient._list`: `listdir_attr` wrapped into `SFTPFileInfo`s. -/
def _list (M : SFTPModel) (path : String) : List SFTPFileInfo :=
  (M.remote.listdir_attr path).map (fun it => ⟨it.1, it.2⟩)

/-- `SFTPClient._get_item_names`. -/
def _get_item_names (M : SFTPModel) (path : String) : List String :=
  (_list M path).map (fun item => item.name)

/-- `SFTPClient._is_dir_symlink`: resolve the link and test whether
`path/resolved` is a directory. -/
def _is_dir_symlink (M : SFTPModel) (path item : String) : Bool :=
  is_dir M (path ++ "/" ++ M.remote.readlink (path ++ "/" ++ item))

/-- `SFTPClient._get_file_names`: regular files, plus symlinks that do not
resolve to directories. -/
def _get_file_names (M : SFTPModel) (path : String) : List String :=
  ((_list M path).filter (fun item =>
    item.is_regular || (item.is_link && !_is_dir_symlink M path item.name))).map
    (fun item => item.name)

/-- `SFTPClient._get_directory_names`. -/
def _get_directory_names (M : SFTPModel) (path : String) : List String :=
  ((_list M path).filter (fun item => item.is_directory)).map
    (fun item => item.name)

/-- `SFTPClient._filter_by_pattern`: `fnmatchcase` on the bare name. -/
def _filter_by_pattern (M : SFTPModel) (items : List String) (pattern : String) :
    List String :=
  items.filter (fun name => M.sys.fnmatchcase name pattern)

/-- `SFTPClient._include_absolute_path`: prefix the (normalized) directory
path, with the Windows drive special case. -/
def _include_absolute_path (M : SFTPModel) (items : List String) (path : String) :
    List String :=
  let absolute_path := _absolute_path M path
  let absolute_path :=
    if pyTake (pyDrop absolute_path 1) 2 = ":\\" then absolute_path ++ "\\"
    else absolute_path ++ "/"
  items.map (fun name => absolute_path ++ name)

/-- `SFTPClient._list_filtered` (with `_verify_remote_dir_exists` inlined):
listing a non-directory raises; an optional glob `pattern` filters names;
`absolute` switches to absolute paths. -/
def _list_filtered (M : SFTPModel) (path : String)
    (filter_method : String → List String) (pattern : Option String)
    (absolute : Bool) : Except String (List String) :=
  if is_dir M path = false then
    .error ("There was no directory matching '" ++ path ++ "'.")
  else
    let items := filter_method path
    let items :=
      match pattern with
      | some p => if p.data.isEmpty then items else _filter_by_pattern M items p
      | none => items
    let items := if absolute then _include_absolute_path M items path else items
    .ok items

/-- `SFTPClient.list_dir`. -/
def list_dir (M : SFTPModel) (path : String) (pattern : Option String)
    (absolute : Bool) : Except String (List String) :=
  _list_filtered M path (_get_item_names M) pattern absolute

/-- `SFTPClient.list_files_in_dir`. -/
def list_files_in_dir (M : SFTPModel) (path : String) (pattern : Option String)
    (absolute : Bool) : Except String (List String) :=
  _list_filtered M path (_get_file_names M) pattern absolute

/-- `SFTPClient.list_dirs_in_dir`. -/
def list_dirs_in_dir (M : SFTPModel) (path : String) (pattern : Option String)
    (absolute : Bool) : Except String (List String) :=
  _list_filtered M path (_get_directory_names M) pattern absolute

/-- `SSHClient.list_dir`: `sorted(self.sftp_client.list_dir(...))`. -/
def client_list_dir (M : SFTPModel) (path : String) (pattern : Option String)
    (absolute : Bool) : Except String (List String) :=
  (list_dir M path pattern absolute).map pySorted

/-- `SSHClient.list_files_in_dir`: `sorted(...)` of the backend items. -/
def client_list_files_in_dir (M : SFTPModel) (path : String)
    (pattern : Option String) (absolute : Bool) : Except String (List String) :=
  (list_files_in_dir M path pattern absolute).map pySorted

/-- `SSHClient.list_dirs_in_dir`: `sorted(...)` of the backend items. -/
def client_list_dirs_in_dir (M : SFTPModel) (path : String)
    (pattern : Option String) (absolute : Bool) : Except String (List String) :=
  (list_dirs_in_dir M path pattern absolute).map pySorted

/-- `SFTPClient._get_get_file_sources`: split off a trailing glob pattern,
then either the literal existing file or the matching files of the parent
directory (as absolute paths). -/
def _get_get_file_sources (M : SFTPModel) (source path_separator : String) :
    Except String (List String) :=
  let pp : String × String :=
    match pyRsplit1 source path_separator with
    | some r => r
    | none => ("", source)
  let path := if pp.1.data.isEmpty then "." else pp.1
  if is_file M source = false then
    list_files_in_dir M path (some pp.2) true
  else
    .ok [source]

/-- `SFTPClient._create_missing_local_dirs`: `os.makedirs` of the target
directory (or the target's parent for a file destination) when missing. -/
def _create_missing_local_dirs (M : SFTPModel) (destination : String)
    (target_is_dir : Bool) : List FOp :=
  let destination :=
    if target_is_dir = false then M.sys.dirname destination else destination
  if M.sys.path_exists destination then [] else [.makedirs_local destination]

/-- `SFTPClient._get_get_file_destinations`: multiple sources require a
directory destination; relative destinations are made absolute locally. -/
def _get_get_file_destinations (M : SFTPModel) (source_files : List String)
    (destination : String) : Except String (List String × List FOp) :=
  let target_is_dir := pyEndsWith destination M.sys.sep || destination == "."
  if target_is_dir = false ∧ source_files.length > 1 then
    .error "Cannot copy multiple source files to one destination file."
  else
    let destination := M.sys.abspath (pyReplace destination "/" M.sys.sep)
    let ops := _create_missing_local_dirs M destination target_is_dir
    if target_is_dir then
      .ok (source_files.map
        (fun name => M.sys.join destination (M.sys.basename name)), ops)
    else
      .ok ([destination], ops)

/-- `SFTPClient.get_file`: glob-resolve the sources (zero matches raise),
compute destinations, then download each pair in order. -/
def get_file (M : SFTPModel) (source destination : String)
    (_scp_preserve_times : Bool) (path_separator : String) :
    Except String (List (String × String)) × List FOp :=
  match _get_get_file_sources M source path_separator with
  | .error e => (.error e, [])
  | .ok remote_files =>
    if remote_files.isEmpty then
      (.error ("There were no source files matching '" ++ source ++ "'."), [])
    else
      match _get_get_file_destinations M remote_files destination with
      | .error e => (.error e, [])
      | .ok (local_files, ops) =>
        let files := remote_files.zip local_files
        (.ok files, ops ++ files.map (fun p => FOp.download p.1 p.2))

/-- `SFTPClient.get_parent_folder`: the last path component of `source`,
ignoring one trailing separator. -/
def get_parent_folder (source path_separator : String) : String :=
  if pyEndsWith source path_separator then
    (pySplitOn (pySliceToNeg source (pyLen path_separator)) path_separator).getLastD ""
  else
    (pySplitOn source path_separator).getLastD ""

/-- `SFTPClient.build_destination`: an existing (or `"."`) destination
gets the source's parent folder appended, creating it locally if needed. -/
def build_destination (M : SFTPModel) (source destination path_separator : String) :
    String × List FOp :=
  if M.sys.path_exists destination || destination == "." then
    let fullpath_destination :=
      M.sys.join destination (get_parent_folder source path_separator)
    (fullpath_destination,
      if M.sys.path_exists fullpath_destination then []
      else [.makedirs_local fullpath_destination])
  else
    (destination, [])

/-- `SFTPClient._remove_ending_path_separator`. -/
def _remove_ending_path_separator (path_separator source : String) : String :=
  if pyEndsWith source path_separator then
    pySliceToNeg source (pyLen path_separator)
  else source

/-- The item loop of `SFTPClient._get_directory`: direct-child files are
fetched with `get_file` (with the default `"/"` separator, as the source
calls `self.get_file(remote, local, scp_preserve_times)`); subdirectory
entries recurse through `recurse` only when `recursive` is set, and are
skipped entirely otherwise.  A raised exception aborts the loop. -/
def _get_directory_items (M : SFTPModel) (scp_preserve_times : Bool)
    (path_separator source destination : String) (recursive : Bool)
    (recurse : String → String → Except String (List (String × String)) × List FOp) :
    List String → Except String (List (String × String)) × List FOp →
    Except String (List (String × String)) × List FOp
  | [], acc => acc
  | item :: rest, acc =>
    match acc with
    | (.error e, t) => (.error e, t)
    | (.ok files, t) =>
      let remote := source ++ path_separator ++ item
      let lcl := M.sys.join destination item
      if is_file M remote then
        match get_file M remote lcl scp_preserve_times "/" with
        | (.ok fs, t2) =>
          _get_directory_items M scp_preserve_times path_separator source
            destination recursive recurse rest (.ok (files ++ fs), t ++ t2)
        | (.error e, t2) =>
          _get_directory_items M scp_preserve_times path_separator source
            destination recursive recurse rest (.error e, t ++ t2)
      else if recursive then
        match recurse remote lcl with
        | (.ok fs, t2) =>
          _get_directory_items M scp_preserve_times path_separator source
            destination recursive recurse rest (.ok (files ++ fs), t ++ t2)
        | (.error e, t2) =>
          _get_directory_items M scp_preserve_times path_separator source
            destination recursive recurse rest (.error e, t ++ t2)
      else
        _get_directory_items M scp_preserve_times path_separator source
          destination recursive recurse rest (.ok files, t)

/-- `SFTPClient.get_directory` (`build_destination` plus `_get_directory`).
The recursive branch of `_get_directory` calls the public
`self.get_directory` again; `fuel` bounds that recursion depth (the
non-recursive behaviour consumes one unit). -/
def get_directory_fuel (M : SFTPModel) (scp_preserve_times : Bool)
    (path_separator : String) :
    Nat → String → String → Bool → Except String (List (String × String)) × List FOp
  | 0, _, _, _ => (.error "maximum recursion depth exceeded", [])
  | Nat.succ fuel, source, destination, recursive =>
    let bd := build_destination M source destination path_separator
    let destination := bd.1
    let source := _remove_ending_path_separator path_separator source
    if is_dir M source = false then
      (.error ("There was no directory matching '" ++ source ++ "'."), bd.2)
    else
      match list_dir M source none false with
      | .error e => (.error e, bd.2)
      | .ok items =>
        if items.isEmpty then
          let mk :=
            if M.sys.path_exists destination then []
            else [FOp.makedirs_local destination]
          (.ok [(source, destination)], bd.2 ++ mk)
        else
          _get_directory_items M scp_preserve_times path_separator source
            destination recursive
            (fun s d =>
              get_directory_fuel M scp_preserve_times path_separator fuel s d recursive)
            items (.ok [], bd.2)

/-! #### Uploads (`put_file`) -/

/-- One octal digit. -/
def octDigit (c : Char) : Option Nat :=
  if '0' ≤ c ∧ c ≤ '7' then some (c.toNat - 48) else none

/-- Python `int(s, 8)` on the shapes the source passes (an optional
`0o`/`0O` prefix followed by octal digits); `none` is the `ValueError`. -/
def py_int_octal (s : String) : Option Nat :=
  let t := if pyStartsWith s "0o" || pyStartsWith s "0O" then pyDrop s 2 else s
  if t.data.isEmpty then none
  else
    t.data.foldl
      (fun acc c =>
        match acc, octDigit c with
        | some a, some d => some (a * 8 + d)
        | _, _ => none)
      (some 0)

/-- `if mode: mode = int(mode, 8)` at the top of `put_file`: a falsy mode
(`None` or `""`) is left unconverted; a conversion failure raises. -/
def convert_put_mode (mode : Option String) : Except String (Option PyMode) :=
  match mode with
  | none => .ok none
  | some m =>
    if m.data.isEmpty then .ok (some (.raw m))
    else
      match py_int_octal m with
      | some v => .ok (some (.num v))
      | none => .error ("invalid literal for int() with base 8: '" ++ m ++ "'")

/-- The newline translation table of `put_file`:
`{"CRLF": "\r\n", "LF": "\n"}.get(newline.upper(), None)`. -/
def newline_chars (newline : String) : Option String :=
  if pyToUpper newline = "CRLF" then some "\r\n"
  else if pyToUpper newline = "LF" then some "\n"
  else none

/-- `SFTPClient._get_put_file_sources`: normalize separators to the local
OS, glob only when the literal path does not exist, and fail when nothing
matches — before any remote interaction. -/
def _get_put_file_sources (M : SFTPModel) (source : String) :
    Except String (List String) :=
  let source := pyReplace source "/" M.sys.sep
  let sources :=
    if M.sys.path_exists source = false then M.sys.glob source else [source]
  if sources.isEmpty then
    .error ("There are no source files matching '" ++ source ++ "'.")
  else
    .ok sources

/-- `SFTPClient._format_destination_path`: forward slashes, drive prefix
stripped. -/
def _format_destination_path (M : SFTPModel) (destination : String) : String :=
  let destination := pyReplace destination "\\" "/"
  (M.sys.splitdrive destination).2

/-- `SFTPClient._parse_path_elements`: make the destination absolute
against the remote home directory, then split it into directory and file
name unless it already is a directory.  A destination without the
separator on the rsplit path would fail Python's 2-element unpacking. -/
def _parse_path_elements (M : SFTPModel) (destination path_separator : String) :
    Except String (String × String) :=
  let isabs := pyStartsWith destination path_separator ||
    (path_separator == "\\" && (pyTake (pyDrop destination 1) 2 == ":\\"))
  let destination :=
    if isabs then destination else homedir M ++ path_separator ++ destination
  if is_dir M destination then .ok (destination, "")
  else
    match pyRsplit1 destination path_separator with
    | some r => .ok r
    | none => .error "not enough values to unpack (expected 2, got 1)"

/-- `SFTPClient._get_put_file_destinations`: drive-letter special case,
`.` resolves to the remote home, several sources need a directory target;
returns the per-source remote file paths and the remote directory. -/
def _get_put_file_destinations (M : SFTPModel) (sources : List String)
    (destination path_separator : String) : Except String (List String × String) :=
  let destination :=
    if pyTake (pyDrop destination 1) 2 == ":" ++ path_separator then
      path_separator ++ destination
    else destination
  let destination := _format_destination_path M destination
  let destination := if destination == "." then homedir M ++ "/" else destination
  if sources.length > 1 ∧ pyTakeRight destination 1 ≠ "/" ∧
      is_dir M destination = false then
    .error "It is not possible to copy multiple source files to one destination file."
  else
    match _parse_path_elements M destination path_separator with
    | .error e => .error e
    | .ok pe =>
      if pe.2.data.isEmpty = false then
        .ok ([pe.1 ++ path_separator ++ pe.2], pe.1)
      else
        .ok (sources.map (fun p => pe.1 ++ path_separator ++ M.sys.basename p), pe.1)

/-- `posixpath.join` on the two-argument shapes the source uses. -/
def posix_join (a b : String) : String :=
  if pyStartsWith b "/" then b
  else if a == "" || pyEndsWith a "/" then a ++ b
  else a ++ "/" ++ b

/-- The segment loop of `SFTPClient._create_missing_remote_path`: every
segment is stat'ed and, when missing, created with `mkdir(current, mode)`
after an `int(mode, 8)` conversion for non-int modes (which raises for
the `None` and empty-string modes). -/
def _create_missing_remote_path_go (M : SFTPModel) (mode : Option PyMode) :
    List String → String → Except String Unit × List FOp
  | [], _ => (.ok (), [])
  | dir_name :: rest, current_dir =>
    let current_dir :=
      if dir_name.data.isEmpty then current_dir
      else posix_join current_dir dir_name
    match M.remote.stat current_dir with
    | some _ => _create_missing_remote_path_go M mode rest current_dir
    | none =>
      match mode with
      | some (.num m) =>
        let r := _create_missing_remote_path_go M mode rest current_dir
        (r.1, FOp.mkdir_remote current_dir m :: r.2)
      | some (.raw s) =>
        match py_int_octal s with
        | some m =>
          let r := _create_missing_remote_path_go M mode rest current_dir
          (r.1, FOp.mkdir_remote current_dir m :: r.2)
        | none => (.error ("invalid literal for int() with base 8: '" ++ s ++ "'"), [])
      | none =>
        (.error "int() argument must be a string, a bytes-like object or a real number, not NoneType", [])

/-- `SFTPClient._create_missing_remote_path`: walk the `/`-separated
segments from `/` or from the remote home. -/
def _create_missing_remote_path (M : SFTPModel) (path : String)
    (mode : Option PyMode) : Except String Unit × List FOp :=
  let current_dir := if pyStartsWith path "/" then "/" else _absolute_path M "."
  _create_missing_remote_path_go M mode (pySplitOn path "/") current_dir

/-- `re.sub(b"(\r\n|\r|\n)", newline, data)` on one 4096-byte chunk. -/
def newline_sub (nl : List Nat) : List Nat → List Nat
  | [] => []
  | 13 :: 10 :: rest => nl ++ newline_sub nl rest
  | 13 :: rest => nl ++ newline_sub nl rest
  | 10 :: rest => nl ++ newline_sub nl rest
  | b :: rest => b :: newline_sub nl rest

/-- `SFTPClient._create_remote_file`: open the remote file for writing,
then `chmod` it only when it did not already exist and the mode is
truthy. -/
def _create_remote_file_ops (M : SFTPModel) (destination : String)
    (mode : Option PyMode) : List FOp :=
  let file_exists := is_file M destination
  if file_exists = false ∧ py_truthy_mode mode then
    match mode with
    | some pm => [FOp.open_remote destination, FOp.chmod_remote destination pm]
    | none => [FOp.open_remote destination]
  else
    [FOp.open_remote destination]

/-- `SFTPClient._put_file`: create the remote file, write the local
content chunk by chunk (translating newlines when requested; the newline
string is encoded with the session encoding, here its code points), then
close the remote file. -/
def _put_file (M : SFTPModel) (source destination : String) (mode : Option PyMode)
    (newline : Option String) : List FOp :=
  _create_remote_file_ops M destination mode ++
    (M.sys.read_chunks source).map (fun data =>
      FOp.write_remote
        (match newline with
         | some nl => newline_sub (nl.data.map Char.toNat) data
         | none => data)) ++
    [FOp.close_remote]

/-- `SFTPClient.put_file`: convert the mode, resolve the newline
translation, expand the sources (zero matches raise before any remote
call), resolve the destinations, create missing remote directories, and
upload each pair in order. -/
def put_file (M : SFTPModel) (sources destination : String)
    (_scp_preserve_times : Bool) (mode : Option String)
    (newline path_separator : String) :
    Except String (List (String × String)) × List FOp :=
  match convert_put_mode mode with
  | .error e => (.error e, [])
  | .ok mode_val =>
    let newline := newline_chars newline
    match _get_put_file_sources M sources with
    | .error e => (.error e, [])
    | .ok local_files =>
      match _get_put_file_destinations M local_files destination path_separator with
      | .error e => (.error e, [])
      | .ok rf =>
        match _create_missing_remote_path M rf.2 mode_val with
        | (.error e, t) => (.error e, t)
        | (.ok _, t) =>
          let files := local_files.zip rf.1
          (.ok files,
            t ++ (files.map (fun p => _put_file M p.1 p.2 mode_val newline)).flatten)

/-! ### Concrete instances used to evaluate the theorems -/

/-- A session with a 2-tick default timeout whose stream yields one
character and then nothing. -/
def readCtxA : ReadCtx := ⟨2, fun _ => "2 seconds", [some 'a', none]⟩

/-- A session whose stream delivers the shell bytes of the prompt
scenario. -/
def readCtxB : ReadCtx := ⟨20, fun _ => "3 seconds", "hello\n$ ".data.map some⟩

/-- A `re.compile` stand-in whose searches never match. -/
def reCompileNone : String → PyRegex := fun s => ⟨s, fun _ => none⟩

/-- An SSH configuration file with no matching entries for any host. -/
def emptyConf : String → SSHConfigEntry := fun _ => ⟨none, none, none, none⟩

/-- A local machine on which no path exists and every glob is empty. -/
def localSysMissing : LocalSys :=
  ⟨"/", fun _ => false, fun _ => [], id, id, id, fun a b => a ++ "/" ++ b,
   fun s => ("", s), fun _ _ => true, fun _ => []⟩

/-- A remote host with no files at all. -/
def remoteFSEmpty : RemoteFS := ⟨fun _ => none, fun _ => [], fun _ => "", id⟩

/-- The SFTP client bound to the empty machines. -/
def modelMissing : SFTPModel := ⟨localSysMissing, remoteFSEmpty⟩

/-- A remote host with directory `r` holding the regular file `r/a.txt`
and the subdirectory `r/sub`. -/
def remoteFSTree : RemoteFS :=
  ⟨fun p =>
    if p = "r" then some 16877
    else if p = "r/a.txt" then some 33188
    else if p = "r/sub" then some 16877
    else none,
   fun p => if p = "r" then [("sub", 16877), ("a.txt", 33188)] else [],
   fun _ => "", id⟩

/-- A local machine on which every path exists. -/
def localSysTree : LocalSys :=
  ⟨"/", fun _ => true, fun _ => [], id, id, id, fun a b => a ++ "/" ++ b,
   fun s => ("", s), fun _ _ => true, fun _ => []⟩

/-- The SFTP client bound to the small remote tree. -/
def modelTree : SFTPModel := ⟨localSysTree, remoteFSTree⟩

/-! ### Lemmas about the read-until engine -/

theorem push_data (s : String) (c : Char) : (s.push c).data = s.data ++ [c] := by
  cases s
  simp [String.push]

theorem no_match_message_data (e ts o : String) :
    (no_match_message e ts o).data =
      "No match found for '".data ++ e.data ++ "' in ".data ++ ts.data ++
        "\nOutput:\n".data ++ o.data ++ ".".data := by
  simp [no_match_message, String.data_append]

/-- The error message of the engine loop carries the whole accumulated
output: the initial accumulator followed by every character that arrived
on any tick. -/
theorem read_until_loop_error (matcher : String → Bool) (expected ts : String) :
    ∀ (stream : List (Option Char)) (out0 : String) (msg : String),
      _read_until_loop matcher expected ts stream out0 = .error msg →
      msg = no_match_message expected ts ⟨out0.data ++ stream.filterMap id⟩ := by
  intro stream
  induction stream with
  | nil =>
    intro out0 msg h
    simp only [_read_until_loop] at h
    cases h
    simp
  | cons tick rest ih =>
    intro out0 msg h
    simp only [_read_until_loop] at h
    cases tick with
    | some c =>
      cases hm : matcher (out0.push c) with
      | true => rw [hm] at h; simp at h
      | false =>
        rw [hm] at h
        simp only [if_neg Bool.false_ne_true] at h
        have := ih (out0.push c) msg h
        rw [this]
        simp [push_data]
    | none =>
      cases hm : matcher out0 with
      | true => rw [hm] at h; simp at h
      | false =>
        rw [hm] at h
        simp only [if_neg Bool.false_ne_true] at h
        have := ih out0 msg h
        rw [this]
        simp

/-- When the engine loop returns, the matcher holds of the returned
output. -/
theorem read_until_loop_ok (matcher : String → Bool) (expected ts : String) :
    ∀ (stream : List (Option Char)) (out0 out : String),
      _read_until_loop matcher expected ts stream out0 = .ok out →
      matcher out = true := by
  intro stream
  induction stream with
  | nil =>
    intro out0 out h
    simp only [_read_until_loop] at h
    cases h
  | cons tick rest ih =>
    intro out0 out h
    simp only [_read_until_loop] at h
    cases tick with
    | some c =>
      cases hm : matcher (out0.push c) with
      | true =>
        rw [hm] at h
        simp only [if_pos rfl] at h
        cases h
        exact hm
      | false =>
        rw [hm] at h
        simp only [if_neg Bool.false_ne_true] at h
        exact ih (out0.push c) out h
    | none =>
      cases hm : matcher out0 with
      | true =>
        rw [hm] at h
        simp only [if_pos rfl] at h
        cases h
        exact hm
      | false =>
        rw [hm] at h
        simp only [if_neg Bool.false_ne_true] at h
        exact ih out0 out h

/-! ### Claim theorems -/

/-- C1: every read-until operation built on the shared engine
(`_read_until`, with any matcher predicate — `read_until`,
`read_until_regexp` and `read_until_prompt` all delegate to it) that runs
out of its per-call-or-session-default timeout raises an exception whose
message embeds both the expected text/pattern and the full output
accumulated before the timeout. -/
theorem C1_read_until_timeout_message (ctx : ReadCtx) (matcher : String → Bool)
    (expected : String) (per_call : Option Nat) (msg : String)
    (h : _read_until ctx matcher expected per_call = .error msg) :
    msg = no_match_message expected
        (ctx.fmt_time (resolve_timeout per_call ctx.session_timeout))
        ⟨(ctx.stream.take (resolve_timeout per_call ctx.session_timeout)).filterMap id⟩ ∧
    expected.data <:+: msg.data ∧
    ((ctx.stream.take (resolve_timeout per_call ctx.session_timeout)).filterMap id)
      <:+: msg.data := by
  simp only [_read_until] at h
  have hmsg := read_until_loop_error matcher expected
    (ctx.fmt_time (resolve_timeout per_call ctx.session_timeout))
    (ctx.stream.take (resolve_timeout per_call ctx.session_timeout)) "" msg h
  refine ⟨by simpa using hmsg, ?_, ?_⟩
  · rw [hmsg, no_match_message_data]
    exact ⟨"No match found for '".data,
      "' in ".data ++ (ctx.fmt_time (resolve_timeout per_call ctx.session_timeout)).data ++
        "\nOutput:\n".data ++
        (String.mk ("".data ++ (ctx.stream.take (resolve_timeout per_call ctx.session_timeout)).filterMap id)).data ++
        ".".data,
      by simp⟩
  · rw [hmsg, no_match_message_data]
    exact ⟨"No match found for '".data ++ expected.data ++ "' in ".data ++
      (ctx.fmt_time (resolve_timeout per_call ctx.session_timeout)).data ++
        "\nOutput:\n".data, ".".data, by simp⟩

theorem C1_witness :
    "xyz".data <:+: (no_match_message "xyz" "2 seconds" "a").data ∧
    "a".data <:+: (no_match_message "xyz" "2 seconds" "a").data := by
  have h := C1_read_until_timeout_message readCtxA (fun _ => false) "xyz" none
    (no_match_message "xyz" "2 seconds" "a") rfl
  exact ⟨h.2.1, h.2.2⟩

/-- C2: the in-flight command stack is LIFO — `start_command` appends to
the end of `_started_commands`, and `read_command_output` pops and
consumes the most recently started unread command, so after starting
`c1` then `c2` the next read yields `c2` (leaving the stack with `c1` on
top) and the one after yields `c1`. -/
theorem C2_started_commands_lifo {α : Type} (s : List α) (c1 c2 : α) :
    read_command_output (start_command (start_command s c1) c2) =
      .ok (c2, start_command s c1) ∧
    read_command_output (start_command s c1) = .ok (c1, s) := by
  constructor <;>
    simp [read_command_output, start_command, List.getLast?_concat,
      List.dropLast_concat]

/-- C4: `close` is idempotent — a second `close` on an already closed
session is total (the model function never raises) and changes nothing;
after either call every lazily created sub-resource (shell, SFTP client,
both SCP clients) is discarded, and the transport-closing call is the
last action either run performs. -/
theorem C4_close_idempotent {R T : Type} (s : SessionState R T) :
    (s.close.1.close).1 = s.close.1 ∧
    s.close.1._sftp_client = none ∧
    s.close.1._scp_transfer_client = none ∧
    s.close.1._scp_all_client = none ∧
    s.close.1._shell = none ∧
    s.close.1.transportOpen = false ∧
    (s.close.1.close).2.getLast? = some CloseOp.closeTransport ∧
    s.close.2.getLast? = some CloseOp.closeTransport := by
  refine ⟨rfl, rfl, rfl, rfl, rfl, rfl, ?_, ?_⟩ <;>
    simp [SessionState.close, List.getLast?_concat]

/-- C5 counterexample: with a configuration file present whose lookup
yields nothing for the `user` field, `_read_login_ssh_config` discards
the caller-given username ("alice") and resolves the user to `None`
rather than falling back to the given value. -/
theorem C5_counterexample :
    (_read_login_ssh_config true emptyConf "example.com" (some "alice") 22
      none).2.1 ≠ some "alice" := by
  decide

/-- C5 (amended): with `read_config` set and a configuration file
present, host, port, and proxy command are resolved from the lookup with
fallback to the caller-given value when the lookup yields nothing, but
the user field never falls back — it is the lookup value when present
and `None` otherwise, discarding the caller-given username. -/
theorem C5_amended_config_resolution (conf : String → SSHConfigEntry)
    (host : String) (username : Option String) (port_number : Nat)
    (proxy_cmd : Option String) :
    _read_login_ssh_config true conf host username port_number proxy_cmd =
      ((conf host).hostname.getD host,
       (conf host).user,
       (conf host).port.getD port_number,
       (conf host).proxycommand.orElse (fun _ => proxy_cmd)) := by
  cases h : conf host with
  | mk hn u p pc =>
    cases hn <;> cases u <;> cases p <;> cases pc <;>
      simp [_read_login_ssh_config, _get_ssh_config_host, _get_ssh_config_user,
        _get_ssh_config_port, _get_ssh_config_proxy_cmd, h, Option.orElse]

/-- C6: with a literal (non-`REGEXP:`-tagged, non-empty) configured
prompt, `read_until_prompt(strip_prompt=True)` returns the read output
with exactly `len(prompt)` characters removed from its tail. -/
theorem C6_strip_literal_prompt (ctx : ReadCtx) (re_compile : String → PyRegex)
    (prompt out : String)
    (hlit : pyStartsWith prompt "REGEXP:" = false)
    (hne : prompt.data ≠ [])
    (hok : read_until ctx prompt = .ok out) :
    read_until_prompt ctx re_compile (some prompt) true =
      .ok (pySliceToNeg out (pyLen prompt)) ∧
    ∃ tail, out.data = (pySliceToNeg out (pyLen prompt)).data ++ tail ∧
      tail.length = prompt.length := by
  have hempty : prompt.data.isEmpty = false := by
    cases hd : prompt.data with
    | nil => exact absurd hd hne
    | cons a l => rfl
  have hinfix : prompt.data <:+: out.data := by
    have hmatch := read_until_loop_ok (fun s => pyContains s prompt) prompt
      (ctx.fmt_time (resolve_timeout none ctx.session_timeout))
      (ctx.stream.take (resolve_timeout none ctx.session_timeout)) "" out hok
    exact of_decide_eq_true hmatch
  have hk : pyLen prompt ≠ 0 := by
    simp only [pyLen]
    cases hd : prompt.data with
    | nil => exact absurd hd hne
    | cons a l => simp
  have hle : pyLen prompt ≤ out.data.length := hinfix.length_le
  constructor
  · simp [read_until_prompt, hempty, hlit, hok, _strip_prompt]
  · refine ⟨out.data.drop (out.data.length - pyLen prompt), ?_, ?_⟩
    · simp only [pySliceToNeg, if_neg hk]
      exact (List.take_append_drop _ _).symm
    · rw [List.length_drop]
      have : prompt.length = pyLen prompt := rfl
      omega

theorem C6_witness :
    read_until_prompt readCtxB reCompileNone (some "$ ") true = .ok "hello\n" ∧
    (∃ tail, "hello\n$ ".data = (pySliceToNeg "hello\n$ " (pyLen "$ ")).data ++ tail ∧
      tail.length = "$ ".length) := by
  have h := C6_strip_literal_prompt readCtxB reCompileNone "$ " "hello\n$ "
    rfl (by decide) rfl
  exact ⟨h.1, h.2⟩

/-- C8: the `SFTPFileInfo` classification predicates derived from the
POSIX mode bits are pairwise mutually exclusive — no mode value makes two
of `is_regular`, `is_directory`, `is_link` true at once. -/
theorem C8_classifications_mutually_exclusive (f : SFTPFileInfo) :
    (f.is_regular && f.is_directory) = false ∧
    (f.is_regular && f.is_link) = false ∧
    (f.is_directory && f.is_link) = false := by
  have hx : ∀ a b c : Nat, b ≠ c → ((a == b) && (a == c)) = false := by
    intro a b c hbc
    cases h1 : a == b with
    | false => simp
    | true =>
      cases h2 : a == c with
      | false => simp
      | true =>
        exact absurd ((eq_of_beq h1).symm.trans (eq_of_beq h2)) hbc
  exact ⟨hx _ _ _ (by decide), hx _ _ _ (by decide), hx _ _ _ (by decide)⟩

/-- C9: a falsy password (`None` or the empty string) or the literal
two-character string of two double quotes is normalized to `None` before
authentication, so with `allow_agent` false the call picks the same
no-authentication-first path as a call with no password at all. -/
theorem C9_falsy_password_normalized (encode : String → List Nat)
    (password : Option String)
    (h : password = none ∨ password = some "" ∨ password = some "\"\"") :
    login_password_setup encode password false = none ∧
    _login_auth_path (login_password_setup encode password false) false =
      _login_auth_path (login_password_setup encode none false) false ∧
    _login_auth_path (login_password_setup encode password false) false =
      AuthPath.noAuthFirst := by
  rcases h with h | h | h <;> subst h <;> exact ⟨rfl, rfl, rfl⟩

theorem C9_witness :
    login_password_setup (fun s => s.data.map Char.toNat) (some "\"\"") false = none ∧
    _login_auth_path
        (login_password_setup (fun s => s.data.map Char.toNat) (some "\"\"") false)
        false =
      _login_auth_path
        (login_password_setup (fun s => s.data.map Char.toNat) none false) false ∧
    _login_auth_path
        (login_password_setup (fun s => s.data.map Char.toNat) (some "\"\"") false)
        false = AuthPath.noAuthFirst :=
  C9_falsy_password_normalized (fun s => s.data.map Char.toNat) (some "\"\"")
    (Or.inr (Or.inr rfl))

/-! ### Lemmas about the Python string order -/

theorem pyLexLe_total : ∀ x y : List Char, (pyLexLe x y || pyLexLe y x) = true := by
  intro x
  induction x with
  | nil => intro y; simp [pyLexLe]
  | cons a as ih =>
    intro y
    cases y with
    | nil => simp [pyLexLe]
    | cons b bs =>
      simp only [pyLexLe]
      by_cases hab : a.toNat = b.toNat
      · rw [if_pos hab, if_pos hab.symm]
        exact ih bs
      · rw [if_neg hab, if_neg (fun hc => hab hc.symm)]
        simp only [Bool.or_eq_true, decide_eq_true_eq]
        omega

theorem pyLexLe_trans : ∀ x y z : List Char,
    pyLexLe x y = true → pyLexLe y z = true → pyLexLe x z = true := by
  intro x
  induction x with
  | nil => intro y z _ _; simp [pyLexLe]
  | cons a as ih =>
    intro y z hxy hyz
    cases y with
    | nil => simp [pyLexLe] at hxy
    | cons b bs =>
      cases z with
      | nil => simp [pyLexLe] at hyz
      | cons c cs =>
        simp only [pyLexLe] at hxy hyz ⊢
        by_cases hab : a.toNat = b.toNat
        · rw [if_pos hab] at hxy
          by_cases hbc : b.toNat = c.toNat
          · rw [if_pos hbc] at hyz
            rw [if_pos (hab.trans hbc)]
            exact ih bs cs hxy hyz
          · rw [if_neg hbc] at hyz
            have hac : a.toNat ≠ c.toNat := by rw [hab]; exact hbc
            rw [if_neg hac]
            simp only [decide_eq_true_eq] at hyz ⊢
            omega
        · rw [if_neg hab] at hxy
          simp only [decide_eq_true_eq] at hxy
          by_cases hbc : b.toNat = c.toNat
          · have hac : a.toNat ≠ c.toNat := by omega
            rw [if_neg hac]
            simp only [decide_eq_true_eq]
            omega
          · rw [if_neg hbc] at hyz
            simp only [decide_eq_true_eq] at hyz
            have hac : a.toNat ≠ c.toNat := by omega
            rw [if_neg hac]
            simp only [decide_eq_true_eq]
            omega

theorem pyStrLe_trans (a b c : String) :
    pyStrLe a b = true → pyStrLe b c = true → pyStrLe a c = true :=
  pyLexLe_trans a.data b.data c.data

theorem pyStrLe_total (a b : String) : (pyStrLe a b || pyStrLe b a) = true :=
  pyLexLe_total a.data b.data

/-- C10: each session-level listing operation returns exactly the
backend's matching items (a permutation of them) arranged in ascending
Python string order. -/
theorem C10_session_listing_sorted (M : SFTPModel) (path : String)
    (pattern : Option String) (absolute : Bool) :
    (∀ items, list_dir M path pattern absolute = .ok items →
      client_list_dir M path pattern absolute = .ok (pySorted items) ∧
      (pySorted items).Perm items ∧
      List.Pairwise (fun a b => pyStrLe a b = true) (pySorted items)) ∧
    (∀ items, list_files_in_dir M path pattern absolute = .ok items →
      client_list_files_in_dir M path pattern absolute = .ok (pySorted items) ∧
      (pySorted items).Perm items ∧
      List.Pairwise (fun a b => pyStrLe a b = true) (pySorted items)) ∧
    (∀ items, list_dirs_in_dir M path pattern absolute = .ok items →
      client_list_dirs_in_dir M path pattern absolute = .ok (pySorted items) ∧
      (pySorted items).Perm items ∧
      List.Pairwise (fun a b => pyStrLe a b = true) (pySorted items)) := by
  refine ⟨fun items h => ⟨?_, ?_, ?_⟩, fun items h => ⟨?_, ?_, ?_⟩,
    fun items h => ⟨?_, ?_, ?_⟩⟩
  · simp [client_list_dir, h, Except.map]
  · exact List.mergeSort_perm items pyStrLe
  · exact List.sorted_mergeSort pyStrLe_trans pyStrLe_total items
  · simp [client_list_files_in_dir, h, Except.map]
  · exact List.mergeSort_perm items pyStrLe
  · exact List.sorted_mergeSort pyStrLe_trans pyStrLe_total items
  · simp [client_list_dirs_in_dir, h, Except.map]
  · exact List.mergeSort_perm items pyStrLe
  · exact List.sorted_mergeSort pyStrLe_trans pyStrLe_total items

theorem C10_witness :
    client_list_dir modelTree "r" none false = .ok (pySorted ["sub", "a.txt"]) ∧
    (pySorted ["sub", "a.txt"]).Perm ["sub", "a.txt"] ∧
    List.Pairwise (fun a b => pyStrLe a b = true) (pySorted ["sub", "a.txt"]) :=
  (C10_session_listing_sorted modelTree "r" none false).1 ["sub", "a.txt"] rfl

/-- C3: a `put_file` whose source pattern matches no existing local file
fails during glob expansion with the no-matching-source-files error
naming the (OS-normalized) pattern, and performs no remote operation at
all: the trace of remote directory creations, chmods and file writes is
empty. -/
theorem C3_put_file_zero_matches (M : SFTPModel) (sources destination : String)
    (preserve : Bool) (mode : Option String) (newline path_separator : String)
    (mode_val : Option PyMode)
    (hmode : convert_put_mode mode = .ok mode_val)
    (hexists : M.sys.path_exists (pyReplace sources "/" M.sys.sep) = false)
    (hglob : M.sys.glob (pyReplace sources "/" M.sys.sep) = []) :
    put_file M sources destination preserve mode newline path_separator =
      (.error ("There are no source files matching '" ++
        pyReplace sources "/" M.sys.sep ++ "'."), []) ∧
    (pyReplace sources "/" M.sys.sep).data <:+:
      ("There are no source files matching '" ++
        pyReplace sources "/" M.sys.sep ++ "'.").data := by
  constructor
  · simp [put_file, hmode, _get_put_file_sources, hexists, hglob]
  · exact ⟨"There are no source files matching '".data, "'.".data,
      by simp [String.data_append]⟩

theorem C3_witness :
    put_file modelMissing "missing/*.txt" "remote/dir/" false (some "0o744") ""
        "/" =
      (.error ("There are no source files matching '" ++
        pyReplace "missing/*.txt" "/" "/" ++ "'."), []) ∧
    (pyReplace "missing/*.txt" "/" "/").data <:+:
      ("There are no source files matching '" ++
        pyReplace "missing/*.txt" "/" "/" ++ "'.").data :=
  C3_put_file_zero_matches modelMissing "missing/*.txt" "remote/dir/" false
    (some "0o744") "" "/" (some (.num 484)) rfl rfl rfl

/-! ### Lemmas for the non-recursive directory download -/

/-- `get_file` on an existing remote file resolves to exactly that file:
the returned pair list is the singleton whose source is the given path. -/
theorem get_file_single (M : SFTPModel) (src dst : String) (preserve : Bool)
    (h : is_file M src = true) :
    ∃ d ops, get_file M src dst preserve "/" = (.ok [(src, d)], ops) := by
  by_cases htid : (pyEndsWith dst M.sys.sep || dst == ".") = true
  · refine ⟨M.sys.join (M.sys.abspath (pyReplace dst "/" M.sys.sep))
        (M.sys.basename src),
      _create_missing_local_dirs M (M.sys.abspath (pyReplace dst "/" M.sys.sep))
          true ++
        [FOp.download src
          (M.sys.join (M.sys.abspath (pyReplace dst "/" M.sys.sep))
            (M.sys.basename src))], ?_⟩
    simp [get_file, _get_get_file_sources, h, _get_get_file_destinations, htid]
  · have htid2 : (pyEndsWith dst M.sys.sep || dst == ".") = false := by
      cases hb : (pyEndsWith dst M.sys.sep || dst == ".") with
      | true => exact absurd hb htid
      | false => rfl
    refine ⟨M.sys.abspath (pyReplace dst "/" M.sys.sep),
      _create_missing_local_dirs M (M.sys.abspath (pyReplace dst "/" M.sys.sep))
          false ++
        [FOp.download src (M.sys.abspath (pyReplace dst "/" M.sys.sep))], ?_⟩
    simp [get_file, _get_get_file_sources, h, _get_get_file_destinations, htid2]

/-- In the non-recursive item loop, every produced pair either was
already in the accumulator or is the download of a direct-child file. -/
theorem get_directory_items_sources (M : SFTPModel) (preserve : Bool)
    (sep source destination : String)
    (recurse : String → String → Except String (List (String × String)) × List FOp) :
    ∀ (items : List String) (files0 : List (String × String)) (t0 ops : List FOp)
      (pairs : List (String × String)),
      _get_directory_items M preserve sep source destination false recurse items
        (.ok files0, t0) = (.ok pairs, ops) →
      ∀ p ∈ pairs, p ∈ files0 ∨
        ∃ item ∈ items, is_file M (source ++ sep ++ item) = true ∧
          p.1 = source ++ sep ++ item := by
  intro items
  induction items with
  | nil =>
    intro files0 t0 ops pairs h p hp
    simp only [_get_directory_items, Prod.mk.injEq, Except.ok.injEq] at h
    exact Or.inl (h.1 ▸ hp)
  | cons item rest ih =>
    intro files0 t0 ops pairs h p hp
    simp only [_get_directory_items] at h
    by_cases hf : is_file M (source ++ sep ++ item) = true
    · obtain ⟨d, ops2, hg⟩ :=
        get_file_single M (source ++ sep ++ item)
          (M.sys.join destination item) preserve hf
      rw [hf, hg] at h
      simp only [if_true] at h
      have hmem := ih (files0 ++ [(source ++ sep ++ item, d)]) (t0 ++ ops2) ops
        pairs h p hp
      rcases hmem with hmem | ⟨it, hit, hisf, hfst⟩
      · rcases List.mem_append.mp hmem with h1 | h2
        · exact Or.inl h1
        · right
          refine ⟨item, List.mem_cons_self item rest, hf, ?_⟩
          have hpd : p = (source ++ sep ++ item, d) := by simpa using h2
          rw [hpd]
      · exact Or.inr ⟨it, List.mem_cons_of_mem item hit, hisf, hfst⟩
    · have hf' : is_file M (source ++ sep ++ item) = false :=
        Bool.not_eq_true _ ▸ (Bool.eq_false_iff.mpr hf)
      rw [hf'] at h
      simp only [Bool.false_eq_true, if_false] at h
      have hmem := ih files0 t0 ops pairs h p hp
      rcases hmem with hmem | ⟨it, hit, hisf, hfst⟩
      · exact Or.inl hmem
      · exact Or.inr ⟨it, List.mem_cons_of_mem item hit, hisf, hfst⟩

/-- C7: a non-recursive `get_directory` on an existing remote directory
transfers only direct-child files: every returned pair is either the
download of a direct child that is a file, or (only when the directory is
empty) the synthetic pair for the created-but-empty destination;
subdirectory entries are never descended into and contribute nothing. -/
theorem C7_get_directory_nonrecursive (M : SFTPModel) (preserve : Bool)
    (sep source destination : String) (fuel : Nat)
    (pairs : List (String × String)) (ops : List FOp)
    (h : get_directory_fuel M preserve sep (fuel + 1) source destination false =
      (.ok pairs, ops)) :
    ∃ items,
      list_dir M (_remove_ending_path_separator sep source) none false = .ok items ∧
      ∀ p ∈ pairs,
        (∃ item ∈ items,
          is_file M (_remove_ending_path_separator sep source ++ sep ++ item) = true ∧
          p.1 = _remove_ending_path_separator sep source ++ sep ++ item) ∨
        (items = [] ∧
          p = (_remove_ending_path_separator sep source,
            (build_destination M source destination sep).1)) := by
  simp only [get_directory_fuel] at h
  cases hd : is_dir M (_remove_ending_path_separator sep source) with
  | false => rw [hd] at h; simp at h
  | true =>
    rw [hd] at h
    simp only [Bool.true_eq_false, if_false] at h
    cases hl : list_dir M (_remove_ending_path_separator sep source) none false with
    | error e => rw [hl] at h; simp at h
    | ok items =>
      rw [hl] at h
      cases items with
      | nil =>
        simp only [List.isEmpty_nil, if_true, Prod.mk.injEq, Except.ok.injEq] at h
        refine ⟨[], rfl, ?_⟩
        intro p hp
        right
        refine ⟨rfl, ?_⟩
        rw [← h.1] at hp
        simpa using hp
      | cons i rest =>
        simp only [List.isEmpty_cons, Bool.false_eq_true, if_false] at h
        refine ⟨i :: rest, rfl, ?_⟩
        intro p hp
        have := get_directory_items_sources M preserve sep
          (_remove_ending_path_separator sep source)
          (build_destination M source destination sep).1
          (fun s d => get_directory_fuel M preserve sep fuel s d false)
          (i :: rest) [] (build_destination M source destination sep).2 ops pairs
          h p hp
        rcases this with hmem | hex
        · simp at hmem
        · exact Or.inl hex

theorem C7_witness :
    ∃ items,
      list_dir modelTree (_remove_ending_path_separator "/" "r") none false =
        .ok items ∧
      ∀ p ∈ [("r/a.txt", "d/r/a.txt")],
        (∃ item ∈ items,
          is_file modelTree
            (_remove_ending_path_separator "/" "r" ++ "/" ++ item) = true ∧
          p.1 = _remove_ending_path_separator "/" "r" ++ "/" ++ item) ∨
        (items = [] ∧
          p = (_remove_ending_path_separator "/" "r",
            (build_destination modelTree "r" "d" "/").1)) :=
  C7_get_directory_nonrecursive modelTree false "/" "r" "d" 0
    [("r/a.txt", "d/r/a.txt")] [FOp.download "r/a.txt" "d/r/a.txt"] rfl

end SSHLib
